import Mathlib

/-!
Shallow embedding of the metric-space geometry engine
(src/src/core/metric-space-geometry.js) and verification of its
specification claims.

JavaScript numbers are modelled as real numbers (exact arithmetic).
Where the JavaScript code can produce a non-real value (NaN or an
infinity, e.g. 0/0 in the normalized weight term), a separate
Option-valued definition tracks definedness explicitly; the plain
real-valued definitions follow Mathlib's total-function conventions
(division by zero is 0, Real.sqrt of a negative number is 0).
-/

namespace MetricSpace

/-- Embeds the MetricVertex class: position, weight (default 1.0) and
curvature (default 0.0). -/
structure MetricVertex where
  x : ℝ
  y : ℝ
  z : ℝ
  weight : ℝ := 1
  curvature : ℝ := 0

instance : Inhabited MetricVertex := ⟨⟨0, 0, 0, 1, 0⟩⟩

/-- The resolved metric parameters stored on the engine by the
constructor (this.alpha, ..., this.complexityFactor). -/
structure MetricParams where
  alpha : ℝ
  beta : ℝ
  gamma : ℝ
  threshold : ℝ
  minCurvatureRadius : ℝ
  maxCurvatureRadius : ℝ
  complexityFactor : ℝ

/-- The params object passed to the constructor: each field may be
absent (undefined). -/
structure MetricParamsInput where
  alpha : Option ℝ := none
  beta : Option ℝ := none
  gamma : Option ℝ := none
  threshold : Option ℝ := none
  minCurvatureRadius : Option ℝ := none
  maxCurvatureRadius : Option ℝ := none
  complexityFactor : Option ℝ := none

/-- Embeds the JavaScript idiom `params.field || dflt` on numeric
values: undefined falls back to the default, and so does 0, because 0
is falsy in JavaScript; any other (non-NaN) number is kept. -/
noncomputable def jsOrDefault (v : Option ℝ) (dflt : ℝ) : ℝ :=
  match v with
  | none => dflt
  | some val => if val = 0 then dflt else val

/-- Embeds the parameter-resolution part of MetricSpaceGeometry's
constructor (`this.alpha = params.alpha || 1.0;` etc.). -/
noncomputable def resolveParams (params : MetricParamsInput) : MetricParams where
  alpha := jsOrDefault params.alpha 1
  beta := jsOrDefault params.beta 0.5
  gamma := jsOrDefault params.gamma 0.2
  threshold := jsOrDefault params.threshold 5
  minCurvatureRadius := jsOrDefault params.minCurvatureRadius 0.5
  maxCurvatureRadius := jsOrDefault params.maxCurvatureRadius 2
  complexityFactor := jsOrDefault params.complexityFactor 1

/-- The parameters obtained when the constructor is called with an
empty params object. -/
noncomputable def defaultParams : MetricParams := resolveParams {}

/-- The Euclidean base distance computed inside customDistance:
`Math.sqrt(dx*dx + dy*dy + dz*dz)`. -/
noncomputable def euclidean (v1 v2 : MetricVertex) : ℝ :=
  Real.sqrt ((v1.x - v2.x) * (v1.x - v2.x) + (v1.y - v2.y) * (v1.y - v2.y) +
    (v1.z - v2.z) * (v1.z - v2.z))

/-- The normalized weight-difference term of customDistance:
`Math.abs(v1.weight - v2.weight) / Math.max(v1.weight, v2.weight)`. -/
noncomputable def weightTerm (v1 v2 : MetricVertex) : ℝ :=
  |v1.weight - v2.weight| / max v1.weight v2.weight

/-- The curvature-difference term of customDistance:
`Math.abs(v1.curvature - v2.curvature)`. -/
noncomputable def curvatureTerm (v1 v2 : MetricVertex) : ℝ :=
  |v1.curvature - v2.curvature|

/-- Embeds customDistance: the composite metric
`sqrt(alpha*euclidean^2 + beta*curvatureTerm^2 + gamma*weightTerm^2)`. -/
noncomputable def customDistance (p : MetricParams) (v1 v2 : MetricVertex) : ℝ :=
  Real.sqrt (p.alpha * euclidean v1 v2 ^ 2 + p.beta * curvatureTerm v1 v2 ^ 2 +
    p.gamma * weightTerm v1 v2 ^ 2)

/-- JavaScript division viewed as a partial operation on the reals: the
quotient is a real number exactly when the denominator is nonzero
(0/0 is NaN and x/0 is an infinity in JavaScript, none of them real). -/
noncomputable def jsDiv (a b : ℝ) : Option ℝ :=
  if b = 0 then none else some (a / b)

/-- customDistance with the definedness of the weight-term division
tracked explicitly: the source divides `|v1.weight - v2.weight|` by
`max v1.weight v2.weight` with no guard, and a NaN produced there
propagates through the outer square root. -/
noncomputable def customDistanceChecked (p : MetricParams) (v1 v2 : MetricVertex) :
    Option ℝ :=
  (jsDiv |v1.weight - v2.weight| (max v1.weight v2.weight)).map fun wt =>
    Real.sqrt (p.alpha * euclidean v1 v2 ^ 2 + p.beta * curvatureTerm v1 v2 ^ 2 +
      p.gamma * wt ^ 2)

/-- The two edge classifications pushed by computeConnectivity. -/
inductive EdgeKind where
  | quadratic
  | mobius
deriving DecidableEq, Repr

/-- The per-pair decision inside computeConnectivity's double loop:
an edge is pushed iff `distance < threshold`, classified quadratic iff
additionally `distance < threshold / 2`, else mobius. -/
noncomputable def connectPair (p : MetricParams) (v1 v2 : MetricVertex) :
    Option EdgeKind :=
  if customDistance p v1 v2 < p.threshold then
    if customDistance p v1 v2 < p.threshold / 2 then some EdgeKind.quadratic
    else some EdgeKind.mobius
  else none

/-- The index pairs visited by the double loop
`for i in [0,n); for j in [i+1,n)`, in visit order: all (i, j) with
i < j < n, lexicographically. -/
def allPairs (n : ℕ) : List (ℕ × ℕ) :=
  ((List.range n) ×ˢ (List.range n)).filter fun ij => ij.1 < ij.2

/-- Embeds computeConnectivity: the edges/edgeTypes arrays are built in
lockstep, so they are modelled as one list of (index pair, kind)
entries, in push order. -/
noncomputable def computeConnectivity (p : MetricParams) (vs : List MetricVertex) :
    List ((ℕ × ℕ) × EdgeKind) :=
  (allPairs vs.length).filterMap fun ij =>
    (connectPair p (vs.getD ij.1 default) (vs.getD ij.2 default)).map fun k => (ij, k)

/-- A sampled 3D point pushed by generateCurvePoints. -/
structure Point3 where
  x : ℝ
  y : ℝ
  z : ℝ

/-- The interpolation parameters visited by the loop
`for (let t = 0; t <= 1; t += 1/(numPoints-1))`: in exact arithmetic
the accumulated value at step k is k/(numPoints-1), and for
numPoints ≥ 2 the loop runs for k = 0, ..., numPoints-1 (the next
value, numPoints/(numPoints-1), exceeds 1). -/
noncomputable def curveTs (numPoints : ℕ) : List ℝ :=
  (List.range numPoints).map fun (k : ℕ) => (k : ℝ) / ((numPoints : ℝ) - 1)

/-- The elevation factor of the quadratic branch:
`min(minCurvatureRadius + |v1.curvature + v2.curvature| * complexityFactor,
maxCurvatureRadius)`. -/
noncomputable def elevationFactor (p : MetricParams) (v1 v2 : MetricVertex) : ℝ :=
  min (p.minCurvatureRadius + |v1.curvature + v2.curvature| * p.complexityFactor)
    p.maxCurvatureRadius

/-- The warp factor of the mobius branch:
`min(distance / threshold, 2.0)`. -/
noncomputable def mobiusFactor (p : MetricParams) (v1 v2 : MetricVertex) : ℝ :=
  min (customDistance p v1 v2 / p.threshold) 2

/-- Embeds generateCurvePoints. The source also computes a `midpoint`
object in the quadratic branch, but never reads it when pushing points,
so it is omitted. An unknown type string returns the empty list (the
source's if/else-if chain pushes nothing), but EdgeKind only has the
two constructors actually pushed by computeConnectivity. -/
noncomputable def generateCurvePoints (p : MetricParams) (v1 v2 : MetricVertex)
    (kind : EdgeKind) (numPoints : ℕ) : List Point3 :=
  match kind with
  | EdgeKind.quadratic =>
      (curveTs numPoints).map fun t =>
        { x := (1 - t) * v1.x + t * v2.x
          y := (1 - t) * v1.y + t * v2.y + elevationFactor p v1 v2 * 4 * t * (1 - t)
          z := (1 - t) * v1.z + t * v2.z }
  | EdgeKind.mobius =>
      (curveTs numPoints).map fun t =>
        { x := (1 - t) * v1.x + t * v2.x +
            Real.sin (t * Real.pi * mobiusFactor p v1 v2) * p.complexityFactor
          y := (1 - t) * v1.y + t * v2.y +
            Real.cos (t * Real.pi * mobiusFactor p v1 v2) * p.complexityFactor
          z := (1 - t) * v1.z + t * v2.z }

/-- Embeds computeCentralVertex: sums the coordinates and divides each
by the vertex count, returning `new MetricVertex(cx, cy, cz)` (weight
and curvature take their defaults 1 and 0). On an empty list the
JavaScript quotient 0/0 is NaN; under the real-number convention the
quotient is 0. -/
noncomputable def computeCentralVertex (vs : List MetricVertex) : MetricVertex where
  x := (vs.map fun v => v.x).sum / (vs.length : ℝ)
  y := (vs.map fun v => v.y).sum / (vs.length : ℝ)
  z := (vs.map fun v => v.z).sum / (vs.length : ℝ)
  weight := 1
  curvature := 0

/-- Embeds computeMaxDistanceFromCenter:
`Math.max(...vertices.map(v => customDistance(center, v)))`. For a
nonempty list this is the maximum of the (nonnegative) distances; the
empty case (JavaScript -Infinity) is given the junk value 0. -/
noncomputable def computeMaxDistanceFromCenter (p : MetricParams)
    (vs : List MetricVertex) (center : MetricVertex) : ℝ :=
  ((vs.map fun v => customDistance p center v).foldr max 0)

/-- Embeds computeMetricRadius:
`baseRadius * (1 + radialFactor * weightInfluence * complexityFactor)`
with `radialFactor = sin(theta)*cos(phi)` and weightInfluence the mean
of `weight * exp(-customDistance(center, v))` over the vertices. -/
noncomputable def computeMetricRadius (p : MetricParams) (vs : List MetricVertex)
    (center : MetricVertex) (theta phi maxDistance : ℝ) : ℝ :=
  maxDistance * (1 + (Real.sin theta * Real.cos phi) *
    (((vs.map fun v => v.weight * Real.exp (-(customDistance p center v))).sum /
      (vs.length : ℝ))) * p.complexityFactor)

/-- Embeds computeSurfaceNormal: finite-difference partials of the
metric radius (epsilon = 1e-4), their cross product, then division of
each component by the cross product's length. There is no guard on the
length: a zero-length cross product divides by zero (NaN in
JavaScript; 0 under the real-number convention). -/
noncomputable def computeSurfaceNormal (p : MetricParams) (vs : List MetricVertex)
    (center : MetricVertex) (theta phi radius : ℝ) : Point3 :=
  let epsilon : ℝ := 1 / 10000
  let dTheta := computeMetricRadius p vs center (theta + epsilon) phi radius
  let dPhi := computeMetricRadius p vs center theta (phi + epsilon) radius
  let dxdTheta := (dTheta - radius) * Real.sin theta * Real.cos phi / epsilon
  let dydTheta := (dTheta - radius) * Real.sin theta * Real.sin phi / epsilon
  let dzdTheta := (dTheta - radius) * Real.cos theta / epsilon
  let dxdPhi := (dPhi - radius) * Real.sin theta * (-Real.sin phi) / epsilon
  let dydPhi := (dPhi - radius) * Real.sin theta * Real.cos phi / epsilon
  let dzdPhi : ℝ := 0
  let nx := dydTheta * dzdPhi - dzdTheta * dydPhi
  let ny := dzdTheta * dxdPhi - dxdTheta * dzdPhi
  let nz := dxdTheta * dydPhi - dydTheta * dxdPhi
  let len := Real.sqrt (nx * nx + ny * ny + nz * nz)
  { x := nx / len, y := ny / len, z := nz / len }

/-- The triangulation loop of generateMetricSurface: for each grid cell
(i, j) with i < thetaResolution and j < phiResolution, push the two
triangles (a, c, b) and (b, c, d). -/
def surfaceIndices (thetaResolution phiResolution : ℕ) : List ℕ :=
  (List.range thetaResolution).flatMap fun i =>
    (List.range phiResolution).flatMap fun j =>
      [i * (phiResolution + 1) + j,
       (i + 1) * (phiResolution + 1) + j,
       i * (phiResolution + 1) + j + 1,
       i * (phiResolution + 1) + j + 1,
       (i + 1) * (phiResolution + 1) + j,
       (i + 1) * (phiResolution + 1) + j + 1]

/-- The buffers produced by generateMetricSurface. -/
structure SurfaceGeometry where
  positions : List ℝ
  normals : List ℝ
  uvs : List ℝ
  indices : List ℕ

/-- Embeds generateMetricSurface: a (thetaResolution+1) by
(phiResolution+1) grid of spherical samples with a metric-warped
radius, flat position/normal/uv buffers, and the triangulation index
list. -/
noncomputable def generateMetricSurface (p : MetricParams) (vs : List MetricVertex)
    (thetaResolution phiResolution : ℕ) : SurfaceGeometry :=
  let center := computeCentralVertex vs
  let maxDistance := computeMaxDistanceFromCenter p vs center
  { positions :=
      (List.range (thetaResolution + 1)).flatMap fun i =>
        (List.range (phiResolution + 1)).flatMap fun j =>
          let theta := Real.pi * (i : ℝ) / (thetaResolution : ℝ)
          let phi := 2 * Real.pi * (j : ℝ) / (phiResolution : ℝ)
          let r := computeMetricRadius p vs center theta phi maxDistance
          [r * Real.sin theta * Real.cos phi,
           r * Real.sin theta * Real.sin phi,
           r * Real.cos theta]
    normals :=
      (List.range (thetaResolution + 1)).flatMap fun i =>
        (List.range (phiResolution + 1)).flatMap fun j =>
          let theta := Real.pi * (i : ℝ) / (thetaResolution : ℝ)
          let phi := 2 * Real.pi * (j : ℝ) / (phiResolution : ℝ)
          let r := computeMetricRadius p vs center theta phi maxDistance
          let n := computeSurfaceNormal p vs center theta phi r
          [n.x, n.y, n.z]
    uvs :=
      (List.range (thetaResolution + 1)).flatMap fun i =>
        (List.range (phiResolution + 1)).flatMap fun j =>
          [(j : ℝ) / (phiResolution : ℝ), (i : ℝ) / (thetaResolution : ℝ)]
    indices := surfaceIndices thetaResolution phiResolution }

/-- Embeds the observable state set up by MetricSpaceGeometry's
constructor: the resolved parameters together with the connectivity it
unconditionally computes from them. -/
noncomputable def mkGeometry (vs : List MetricVertex) (params : MetricParamsInput) :
    MetricParams × List ((ℕ × ℕ) × EdgeKind) :=
  let p := resolveParams params
  (p, computeConnectivity p vs)

end MetricSpace

namespace MetricSpace

/-! ### Fixture values used by witnesses and counterexamples -/

/-- A fixture vertex at the origin with weight 1 and curvature 0. -/
def vA : MetricVertex := { x := 0, y := 0, z := 0, weight := 1, curvature := 0 }

/-- A fixture vertex at (3, 0, 0) with weight 1 and curvature 0; its
custom distance to vA under the default parameters is 3. -/
def vB : MetricVertex := { x := 3, y := 0, z := 0, weight := 1, curvature := 0 }

/-- A fixture vertex with weight 0 (the degenerate case of the
normalized weight term). -/
def vZeroW : MetricVertex := { x := 0, y := 0, z := 0, weight := 0, curvature := 0 }

/-! ### Basic lemmas about the distance function -/

lemma defaultParams_eq :
    defaultParams =
      { alpha := 1, beta := 0.5, gamma := 0.2, threshold := 5,
        minCurvatureRadius := 0.5, maxCurvatureRadius := 2, complexityFactor := 1 } := rfl

lemma customDistance_nonneg (p : MetricParams) (v1 v2 : MetricVertex) :
    0 ≤ customDistance p v1 v2 := Real.sqrt_nonneg _

lemma euclidean_comm (v1 v2 : MetricVertex) : euclidean v1 v2 = euclidean v2 v1 := by
  unfold euclidean
  congr 1
  ring

lemma euclidean_self (v : MetricVertex) : euclidean v v = 0 := by
  unfold euclidean
  simp

lemma weightTerm_comm (v1 v2 : MetricVertex) : weightTerm v1 v2 = weightTerm v2 v1 := by
  unfold weightTerm
  rw [abs_sub_comm, max_comm]

lemma weightTerm_self (v : MetricVertex) : weightTerm v v = 0 := by
  unfold weightTerm
  simp

lemma curvatureTerm_comm (v1 v2 : MetricVertex) :
    curvatureTerm v1 v2 = curvatureTerm v2 v1 := by
  unfold curvatureTerm
  rw [abs_sub_comm]

lemma curvatureTerm_self (v : MetricVertex) : curvatureTerm v v = 0 := by
  unfold curvatureTerm
  simp

lemma dist_vA_vB : customDistance defaultParams vA vB = 3 := by
  have hE : euclidean vA vB = 3 := by
    have h9 : (vA.x - vB.x) * (vA.x - vB.x) + (vA.y - vB.y) * (vA.y - vB.y) +
        (vA.z - vB.z) * (vA.z - vB.z) = 9 := by
      norm_num [vA, vB]
    rw [euclidean, h9, show (9 : ℝ) = 3 ^ 2 by norm_num,
      Real.sqrt_sq (by norm_num : (0 : ℝ) ≤ 3)]
  have hc : curvatureTerm vA vB = 0 := by
    norm_num [curvatureTerm, vA, vB]
  have hw : weightTerm vA vB = 0 := by
    norm_num [weightTerm, vA, vB]
  rw [customDistance, hE, hc, hw, defaultParams_eq]
  norm_num
  rw [show (9 : ℝ) = 3 ^ 2 by norm_num, Real.sqrt_sq (by norm_num : (0 : ℝ) ≤ 3)]

/-- C2: for vertices with strictly positive weights, customDistance is
symmetric, vanishes on the diagonal, and is nonnegative. -/
theorem customDistance_metric_axioms (p : MetricParams) (a b : MetricVertex)
    (ha : 0 < a.weight) (hb : 0 < b.weight) :
    customDistance p a b = customDistance p b a ∧
    customDistance p a a = 0 ∧ 0 ≤ customDistance p a b := by
  refine ⟨?_, ?_, customDistance_nonneg p a b⟩
  · unfold customDistance
    rw [euclidean_comm, weightTerm_comm, curvatureTerm_comm]
  · unfold customDistance
    rw [euclidean_self, weightTerm_self, curvatureTerm_self]
    simp

/-- Witness for C2 at the concrete fixture vertices. -/
theorem customDistance_metric_axioms_witness :
    customDistance defaultParams vA vB = customDistance defaultParams vB vA ∧
    customDistance defaultParams vA vA = 0 ∧ 0 ≤ customDistance defaultParams vA vB :=
  customDistance_metric_axioms defaultParams vA vB (by norm_num [vA]) (by norm_num [vB])

/-- C6 counterexample: with both weights 0 the weight-term division is
0/0, so customDistance is not a real number (NaN in JavaScript); the
code has no special case avoiding it. -/
theorem customDistance_zero_weights_undefined :
    customDistanceChecked defaultParams vZeroW vZeroW = none := by
  unfold customDistanceChecked jsDiv
  norm_num [vZeroW]

/-- C6 (amended): customDistance has no special case for equal weights;
for equal nonzero weights the quotient is 0/w = 0 and the result is a
real number, but for both weights zero the quotient is 0/0 (NaN). -/
theorem customDistance_equal_weights (p : MetricParams) (v1 v2 : MetricVertex)
    (hw : v1.weight = v2.weight) (h0 : v1.weight ≠ 0) :
    customDistanceChecked p v1 v2 = some (customDistance p v1 v2) ∧
    customDistance p v1 v2 =
      Real.sqrt (p.alpha * euclidean v1 v2 ^ 2 + p.beta * curvatureTerm v1 v2 ^ 2) := by
  have hmax : max v1.weight v2.weight ≠ 0 := by
    rw [hw, max_self]
    rw [hw] at h0
    exact h0
  have hwt : weightTerm v1 v2 = 0 := by
    unfold weightTerm
    rw [hw, sub_self, abs_zero, zero_div]
  constructor
  · unfold customDistanceChecked jsDiv
    rw [if_neg hmax]
    simp [customDistance, weightTerm]
  · unfold customDistance
    rw [hwt]
    norm_num

/-- Witness for C6 (amended) at two equal-weight fixture vertices. -/
theorem customDistance_equal_weights_witness :
    customDistanceChecked defaultParams vA vB = some (customDistance defaultParams vA vB) ∧
    customDistance defaultParams vA vB =
      Real.sqrt (defaultParams.alpha * euclidean vA vB ^ 2 +
        defaultParams.beta * curvatureTerm vA vB ^ 2) :=
  customDistance_equal_weights defaultParams vA vB (by norm_num [vA, vB])
    (by norm_num [vA])

/-- C9: explicitly passing 0 for any of the seven numeric parameters is
treated exactly like omitting it (0 is falsy in JavaScript), and the
documented defaults are alpha=1.0, beta=0.5, gamma=0.2, threshold=5.0,
minCurvatureRadius=0.5, maxCurvatureRadius=2.0, complexityFactor=1.0. -/
theorem constructor_zero_params_defaulted (inp : MetricParamsInput) :
    resolveParams { inp with alpha := some 0 } = resolveParams { inp with alpha := none } ∧
    resolveParams { inp with beta := some 0 } = resolveParams { inp with beta := none } ∧
    resolveParams { inp with gamma := some 0 } = resolveParams { inp with gamma := none } ∧
    resolveParams { inp with threshold := some 0 } =
      resolveParams { inp with threshold := none } ∧
    resolveParams { inp with minCurvatureRadius := some 0 } =
      resolveParams { inp with minCurvatureRadius := none } ∧
    resolveParams { inp with maxCurvatureRadius := some 0 } =
      resolveParams { inp with maxCurvatureRadius := none } ∧
    resolveParams { inp with complexityFactor := some 0 } =
      resolveParams { inp with complexityFactor := none } ∧
    resolveParams {} =
      { alpha := 1, beta := 0.5, gamma := 0.2, threshold := 5,
        minCurvatureRadius := 0.5, maxCurvatureRadius := 2, complexityFactor := 1 } := by
  refine ⟨?_, ?_, ?_, ?_, ?_, ?_, ?_, rfl⟩ <;>
    simp [resolveParams, jsOrDefault]

end MetricSpace

namespace MetricSpace

/-! ### Connectivity lemmas -/

lemma mem_allPairs {n i j : ℕ} : (i, j) ∈ allPairs n ↔ i < j ∧ j < n := by
  simp only [allPairs, List.mem_filter, List.mem_product, List.mem_range,
    decide_eq_true_eq]
  omega

lemma nodup_allPairs (n : ℕ) : (allPairs n).Nodup :=
  ((List.nodup_range n).product (List.nodup_range n)).filter _

lemma mem_computeConnectivity {p : MetricParams} {vs : List MetricVertex}
    {i j : ℕ} {k : EdgeKind} :
    ((i, j), k) ∈ computeConnectivity p vs ↔
      i < j ∧ j < vs.length ∧
        connectPair p (vs.getD i default) (vs.getD j default) = some k := by
  unfold computeConnectivity
  simp only [List.mem_filterMap, Option.map_eq_some']
  constructor
  · rintro ⟨⟨a, b⟩, hab, k', hk', heq⟩
    injection heq with h1 h2
    injection h1 with hi hj
    subst hi
    subst hj
    subst h2
    obtain ⟨hlt, hn⟩ := mem_allPairs.mp hab
    exact ⟨hlt, hn, hk'⟩
  · rintro ⟨h1, h2, h3⟩
    exact ⟨(i, j), mem_allPairs.mpr ⟨h1, h2⟩, k, h3, rfl⟩

lemma connectPair_eq_quadratic_iff (p : MetricParams) (v w : MetricVertex) :
    connectPair p v w = some EdgeKind.quadratic ↔
      customDistance p v w < p.threshold / 2 := by
  have h0 : 0 ≤ customDistance p v w := customDistance_nonneg p v w
  unfold connectPair
  split_ifs with h1 h2
  · simp [h2]
  · simp [h2]
  · simp only [reduceCtorEq, false_iff]
    intro hc
    exact h1 (by linarith)

lemma connectPair_eq_mobius_iff (p : MetricParams) (v w : MetricVertex) :
    connectPair p v w = some EdgeKind.mobius ↔
      (customDistance p v w < p.threshold ∧
        ¬ customDistance p v w < p.threshold / 2) := by
  unfold connectPair
  split_ifs with h1 h2
  · simp [h1, h2]
  · simp [h1, h2]
  · simp [h1]

lemma connectPair_isSome_iff (p : MetricParams) (v w : MetricVertex) :
    (∃ k, connectPair p v w = some k) ↔ customDistance p v w < p.threshold := by
  unfold connectPair
  split_ifs with h1 h2
  · simp [h1]
  · simp [h1]
  · simp [h1]

lemma map_fst_filterMap_sublist {α β : Type _} (l : List α) (g : α → Option (α × β))
    (hg : ∀ a e, g a = some e → e.1 = a) :
    ((l.filterMap g).map Prod.fst).Sublist l := by
  induction l with
  | nil => simp
  | cons a l ih =>
      rw [List.filterMap_cons]
      cases hga : g a with
      | none => exact (ih).cons a
      | some e =>
          rw [List.map_cons, hg a e hga]
          exact (ih).cons₂ a

/-- C1: computeConnectivity emits an edge for each pair i < j exactly
when the distance is below the threshold, classifies it quadratic
exactly when the distance is below half the threshold (so a distance of
exactly threshold/2 is mobius), and produces no self-loops and no
duplicate pairs. -/
theorem computeConnectivity_spec (p : MetricParams) (vs : List MetricVertex) :
    (∀ e ∈ computeConnectivity p vs, e.1.1 < e.1.2 ∧ e.1.2 < vs.length) ∧
    ((computeConnectivity p vs).map Prod.fst).Nodup ∧
    ∀ i j : ℕ, i < j → j < vs.length →
      ((∃ k, ((i, j), k) ∈ computeConnectivity p vs) ↔
        customDistance p (vs.getD i default) (vs.getD j default) < p.threshold) ∧
      (((i, j), EdgeKind.quadratic) ∈ computeConnectivity p vs ↔
        customDistance p (vs.getD i default) (vs.getD j default) < p.threshold / 2) ∧
      (((i, j), EdgeKind.mobius) ∈ computeConnectivity p vs ↔
        (customDistance p (vs.getD i default) (vs.getD j default) < p.threshold ∧
          ¬ customDistance p (vs.getD i default) (vs.getD j default) <
            p.threshold / 2)) := by
  refine ⟨?_, ?_, ?_⟩
  · rintro ⟨⟨i, j⟩, k⟩ hmem
    have h := mem_computeConnectivity.mp hmem
    exact ⟨h.1, h.2.1⟩
  · have hsub := map_fst_filterMap_sublist (allPairs vs.length)
      (fun ij => (connectPair p (vs.getD ij.1 default) (vs.getD ij.2 default)).map
        fun k => (ij, k)) ?_
    · exact List.Nodup.sublist hsub (nodup_allPairs vs.length)
    · intro a e he
      rw [Option.map_eq_some'] at he
      obtain ⟨k, -, hk⟩ := he
      rw [← hk]
  · intro i j hij hj
    refine ⟨?_, ?_, ?_⟩
    · simp only [mem_computeConnectivity, hij, hj, true_and]
      exact connectPair_isSome_iff p _ _
    · simp only [mem_computeConnectivity, hij, hj, true_and]
      exact connectPair_eq_quadratic_iff p _ _
    · simp only [mem_computeConnectivity, hij, hj, true_and]
      exact connectPair_eq_mobius_iff p _ _

lemma connectPair_vA_vB : connectPair defaultParams vA vB = some EdgeKind.mobius := by
  unfold connectPair
  rw [dist_vA_vB, show defaultParams.threshold = 5 from rfl,
    if_pos (by norm_num : (3 : ℝ) < 5), if_neg (by norm_num : ¬ (3 : ℝ) < 5 / 2)]

/-- Witness for C1 at the concrete fixture: the pair (0, 1) at distance
3 with threshold 5 yields a mobius edge. -/
theorem computeConnectivity_spec_witness :
    ((0, 1), EdgeKind.mobius) ∈ computeConnectivity defaultParams [vA, vB] := by
  have h := (computeConnectivity_spec defaultParams [vA, vB]).2.2 0 1 (by norm_num)
    (by norm_num)
  refine h.2.2.mpr ⟨?_, ?_⟩
  · rw [show ([vA, vB].getD 0 default) = vA from rfl,
      show ([vA, vB].getD 1 default) = vB from rfl, dist_vA_vB,
      show defaultParams.threshold = 5 from rfl]
    norm_num
  · rw [show ([vA, vB].getD 0 default) = vA from rfl,
      show ([vA, vB].getD 1 default) = vB from rfl, dist_vA_vB,
      show defaultParams.threshold = 5 from rfl]
    norm_num

end MetricSpace

namespace MetricSpace

/-! ### Two-vertex connectivity helpers -/

lemma allPairs_two : allPairs 2 = [(0, 1)] := by decide

lemma computeConnectivity_pair_some {p : MetricParams} {v w : MetricVertex}
    {k : EdgeKind} (h : connectPair p v w = some k) :
    computeConnectivity p [v, w] = [((0, 1), k)] := by
  unfold computeConnectivity
  rw [show ([v, w] : List MetricVertex).length = 2 from rfl, allPairs_two]
  simp [List.filterMap_cons, h, List.getD]

lemma computeConnectivity_pair_none {p : MetricParams} {v w : MetricVertex}
    (h : connectPair p v w = none) :
    computeConnectivity p [v, w] = [] := by
  unfold computeConnectivity
  rw [show ([v, w] : List MetricVertex).length = 2 from rfl, allPairs_two]
  simp [List.filterMap_cons, h, List.getD]

lemma cc_vA_vB :
    computeConnectivity defaultParams [vA, vB] = [((0, 1), EdgeKind.mobius)] :=
  computeConnectivity_pair_some connectPair_vA_vB

/-- C5 counterexample: a negative threshold passes the constructor
unchanged (only 0 is falsy) and connectivity is computed with it; with
threshold -1 the nonnegative distances exceed it, so the computed edge
list is empty — connectivity did execute with a non-positive threshold
instead of being rejected. -/
theorem negative_threshold_accepted :
    (mkGeometry [vA, vB] { threshold := some (-1) }).1.threshold = -1 ∧
    ¬ 0 < (mkGeometry [vA, vB] { threshold := some (-1) }).1.threshold ∧
    (mkGeometry [vA, vB] { threshold := some (-1) }).2 = [] := by
  have hth : (resolveParams { threshold := some (-1) }).threshold = -1 := by
    norm_num [resolveParams, jsOrDefault]
  refine ⟨hth, by rw [show (mkGeometry [vA, vB] { threshold := some (-1) }).1 =
    resolveParams { threshold := some (-1) } from rfl, hth]; norm_num, ?_⟩
  have hcp : connectPair (resolveParams { threshold := some (-1) }) vA vB = none := by
    have hnn := customDistance_nonneg (resolveParams { threshold := some (-1) }) vA vB
    unfold connectPair
    rw [hth, if_neg]
    intro hlt
    linarith
  show computeConnectivity (resolveParams { threshold := some (-1) }) [vA, vB] = []
  exact computeConnectivity_pair_none hcp

/-- C5 (amended): a threshold of 0 (or a missing threshold) is replaced
by the default 5.0 through JavaScript falsy coercion, but any nonzero
threshold — including a negative one — is stored unchanged, and the
constructor always computes connectivity with the stored value; no
validation rejects a non-positive threshold. -/
theorem threshold_resolution (inp : MetricParamsInput) :
    (inp.threshold = some 0 → (resolveParams inp).threshold = 5) ∧
    (inp.threshold = none → (resolveParams inp).threshold = 5) ∧
    (∀ x : ℝ, inp.threshold = some x → x ≠ 0 → (resolveParams inp).threshold = x) ∧
    (∀ vs : List MetricVertex,
      (mkGeometry vs inp).2 = computeConnectivity (resolveParams inp) vs) := by
  refine ⟨?_, ?_, ?_, fun vs => rfl⟩
  · intro h
    simp [resolveParams, jsOrDefault, h]
  · intro h
    simp [resolveParams, jsOrDefault, h]
  · intro x hx h0
    simp [resolveParams, jsOrDefault, hx, h0]

/-- Witness for C5 (amended): threshold -1 is stored as given. -/
theorem threshold_resolution_witness :
    (resolveParams { threshold := some (-1) }).threshold = -1 :=
  (threshold_resolution { threshold := some (-1) }).2.2.1 (-1) rfl (by norm_num)

/-- C10: every mobius edge produced by computeConnectivity (with a
positive threshold) has distance/threshold in [1/2, 1), so the
mobiusFactor used by generateCurvePoints equals that ratio exactly and
the min(·, 2.0) clamp never activates. -/
theorem mobius_factor_no_clamp (p : MetricParams) (vs : List MetricVertex) (i j : ℕ)
    (hth : 0 < p.threshold)
    (hmem : ((i, j), EdgeKind.mobius) ∈ computeConnectivity p vs) :
    1 / 2 ≤ customDistance p (vs.getD i default) (vs.getD j default) / p.threshold ∧
    customDistance p (vs.getD i default) (vs.getD j default) / p.threshold < 1 ∧
    mobiusFactor p (vs.getD i default) (vs.getD j default) =
      customDistance p (vs.getD i default) (vs.getD j default) / p.threshold := by
  obtain ⟨-, -, hcp⟩ := mem_computeConnectivity.mp hmem
  rw [connectPair_eq_mobius_iff] at hcp
  obtain ⟨hlt, hge⟩ := hcp
  push_neg at hge
  have h1 : customDistance p (vs.getD i default) (vs.getD j default) / p.threshold < 1 :=
    (div_lt_one hth).mpr hlt
  have h2 : 1 / 2 ≤
      customDistance p (vs.getD i default) (vs.getD j default) / p.threshold := by
    rw [le_div_iff₀ hth]
    linarith
  exact ⟨h2, h1, min_eq_left (by linarith)⟩

/-- Witness for C10 at the fixture mobius edge (distance 3, threshold
5): the factor is exactly 3/5 and the clamp is inactive. -/
theorem mobius_factor_no_clamp_witness :
    mobiusFactor defaultParams ([vA, vB].getD 0 default) ([vA, vB].getD 1 default) =
      customDistance defaultParams ([vA, vB].getD 0 default)
        ([vA, vB].getD 1 default) / defaultParams.threshold :=
  (mobius_factor_no_clamp defaultParams [vA, vB] 0 1
    (by rw [show defaultParams.threshold = 5 from rfl]; norm_num)
    (by rw [cc_vA_vB]; exact List.mem_singleton.mpr rfl)).2.2

end MetricSpace

namespace MetricSpace

/-! ### Curve sampling lemmas -/

lemma curveTs_length (n : ℕ) : (curveTs n).length = n := by
  simp [curveTs]

lemma curveTs_twenty_head : (curveTs 20).head? = some 0 := by
  unfold curveTs
  rw [List.head?_map, show (List.range 20).head? = some 0 from by decide]
  norm_num

lemma curveTs_twenty_last : (curveTs 20).getLast? = some 1 := by
  unfold curveTs
  rw [List.getLast?_map, show (List.range 20).getLast? = some 19 from by decide]
  norm_num

lemma curveTs_twenty_mem : ∀ t ∈ curveTs 20, 0 ≤ t ∧ t ≤ 1 := by
  intro t ht
  simp only [curveTs, List.mem_map, List.mem_range] at ht
  obtain ⟨k, hk, rfl⟩ := ht
  have hk19 : (k : ℝ) ≤ 19 := by exact_mod_cast Nat.le_of_lt_succ hk
  have hk0 : (0 : ℝ) ≤ (k : ℝ) := Nat.cast_nonneg k
  refine ⟨div_nonneg hk0 (by norm_num), ?_⟩
  rw [div_le_one (by norm_num : (0 : ℝ) < ((20 : ℕ) : ℝ) - 1)]
  push_cast
  linarith

/-- C3 (amended): over 20 samples the interpolation parameter runs from
0 to 1 inclusive, and a quadratic curve starts exactly at v1 and ends
exactly at v2; a mobius curve interpolates x and z between the
endpoints but its cosine warp offsets y, so its first point is v1
shifted by complexityFactor in y and its last point is v2 shifted by
the warp evaluated at t = 1. -/
theorem generateCurvePoints_endpoints (p : MetricParams) (v1 v2 : MetricVertex)
    (hne : v1 ≠ v2) :
    ((generateCurvePoints p v1 v2 EdgeKind.quadratic 20).length = 20 ∧
      (generateCurvePoints p v1 v2 EdgeKind.quadratic 20).head? =
        some ⟨v1.x, v1.y, v1.z⟩ ∧
      (generateCurvePoints p v1 v2 EdgeKind.quadratic 20).getLast? =
        some ⟨v2.x, v2.y, v2.z⟩) ∧
    ((generateCurvePoints p v1 v2 EdgeKind.mobius 20).length = 20 ∧
      (generateCurvePoints p v1 v2 EdgeKind.mobius 20).head? =
        some ⟨v1.x, v1.y + p.complexityFactor, v1.z⟩ ∧
      (generateCurvePoints p v1 v2 EdgeKind.mobius 20).getLast? =
        some ⟨v2.x + Real.sin (Real.pi * mobiusFactor p v1 v2) * p.complexityFactor,
          v2.y + Real.cos (Real.pi * mobiusFactor p v1 v2) * p.complexityFactor,
          v2.z⟩) ∧
    ((curveTs 20).head? = some 0 ∧ (curveTs 20).getLast? = some 1 ∧
      ∀ t ∈ curveTs 20, 0 ≤ t ∧ t ≤ 1) := by
  refine ⟨⟨?_, ?_, ?_⟩, ⟨?_, ?_, ?_⟩, curveTs_twenty_head, curveTs_twenty_last,
    curveTs_twenty_mem⟩
  · simp [generateCurvePoints, curveTs_length]
  · simp only [generateCurvePoints, List.head?_map, curveTs_twenty_head,
      Option.map_some', Option.some.injEq, Point3.mk.injEq]
    refine ⟨by ring, by ring, by ring⟩
  · simp only [generateCurvePoints, List.getLast?_map, curveTs_twenty_last,
      Option.map_some', Option.some.injEq, Point3.mk.injEq]
    refine ⟨by ring, by ring, by ring⟩
  · simp [generateCurvePoints, curveTs_length]
  · simp only [generateCurvePoints, List.head?_map, curveTs_twenty_head,
      Option.map_some', Option.some.injEq, Point3.mk.injEq]
    refine ⟨?_, ?_, by ring⟩
    · simp only [zero_mul, Real.sin_zero]
      ring
    · simp only [zero_mul, Real.cos_zero]
      ring
  · simp only [generateCurvePoints, List.getLast?_map, curveTs_twenty_last,
      Option.map_some', Option.some.injEq, Point3.mk.injEq]
    refine ⟨?_, ?_, by ring⟩
    · simp only [one_mul]
      ring
    · simp only [one_mul]
      ring

/-- C3 counterexample: for a mobius edge the first sampled point does
not coincide with v1 — under the default parameters its y coordinate is
offset by complexityFactor = 1 (the warp cos(0)·complexityFactor). -/
theorem generateCurvePoints_mobius_start_offset :
    (generateCurvePoints defaultParams vA vB EdgeKind.mobius 20).head? =
      some ⟨vA.x, vA.y + 1, vA.z⟩ ∧ vA.y + 1 ≠ vA.y := by
  constructor
  · simp only [generateCurvePoints, List.head?_map, curveTs_twenty_head,
      Option.map_some', Option.some.injEq, Point3.mk.injEq]
    refine ⟨?_, ?_, by ring⟩
    · simp only [zero_mul, Real.sin_zero]
      ring
    · simp only [zero_mul, Real.cos_zero,
        show defaultParams.complexityFactor = 1 from rfl]
      ring
  · norm_num [vA]

/-- Witness for C3 (amended) at the fixture vertices: the quadratic
curve starts exactly at vA's position. -/
theorem generateCurvePoints_endpoints_witness :
    (generateCurvePoints defaultParams vA vB EdgeKind.quadratic 20).head? =
      some ⟨vA.x, vA.y, vA.z⟩ :=
  (generateCurvePoints_endpoints defaultParams vA vB
    (by intro h; exact absurd (congrArg MetricVertex.x h) (by norm_num [vA, vB]))).1.2.1

end MetricSpace

namespace MetricSpace

/-! ### Empty vertex set, surface indices and surface normals -/

/-- C4 counterexample: computeCentralVertex performs no emptiness
check; on an empty list it divides the zero coordinate sums by zero, so
the center silently defaults to the origin (NaN coordinates in
JavaScript float semantics) instead of surfacing an error. -/
theorem computeCentralVertex_empty_defaults_origin :
    (computeCentralVertex []).x = 0 ∧ (computeCentralVertex []).y = 0 ∧
    (computeCentralVertex []).z = 0 := by
  refine ⟨?_, ?_, ?_⟩ <;> simp [computeCentralVertex]

/-- C4 (amended): there is no EmptyVertexSetError anywhere in the code;
with zero vertices, computeCentralVertex returns a well-formed vertex
whose coordinates are the 0/0 quotients (origin in exact arithmetic,
NaN in JavaScript), and generateMetricSurface proceeds to build its
full buffer set from it instead of failing. -/
theorem empty_vertex_set_no_error (p : MetricParams) :
    computeCentralVertex [] =
      { x := 0, y := 0, z := 0, weight := 1, curvature := 0 } ∧
    (generateMetricSurface p [] 1 1).positions.length = 12 ∧
    (generateMetricSurface p [] 1 1).indices = surfaceIndices 1 1 := by
  refine ⟨?_, ?_, rfl⟩
  · simp [computeCentralVertex]
  · simp only [generateMetricSurface]
    norm_num [List.range_succ, List.flatMap_append, List.flatMap_cons,
      List.flatMap_nil]

/-- C7: every index emitted by generateMetricSurface's triangulation
loop references an in-range surface grid vertex, i.e. lies in
[0, (thetaResolution+1)*(phiResolution+1)). -/
theorem surface_indices_in_range (p : MetricParams) (vs : List MetricVertex)
    (tR pR : ℕ) (h1 : 1 ≤ tR) (h2 : 1 ≤ pR) (hvs : vs ≠ []) :
    ∀ idx ∈ (generateMetricSurface p vs tR pR).indices,
      idx < (tR + 1) * (pR + 1) := by
  intro idx hidx
  rw [show (generateMetricSurface p vs tR pR).indices = surfaceIndices tR pR
    from rfl] at hidx
  unfold surfaceIndices at hidx
  simp only [List.mem_flatMap, List.mem_range, List.mem_cons,
    List.mem_singleton, List.not_mem_nil, or_false] at hidx
  obtain ⟨i, hi, j, hj, hmem⟩ := hidx
  have key : ∀ a b : ℕ, a ≤ tR → b ≤ pR → a * (pR + 1) + b < (tR + 1) * (pR + 1) := by
    intro a b ha hb
    calc a * (pR + 1) + b < a * (pR + 1) + (pR + 1) := by omega
      _ = (a + 1) * (pR + 1) := by ring
      _ ≤ (tR + 1) * (pR + 1) := Nat.mul_le_mul_right _ (by omega)
  have k1 := key i j (by omega) (by omega)
  have k2 := key (i + 1) j (by omega) (by omega)
  have k3 := key i (j + 1) (by omega) (by omega)
  have k4 := key (i + 1) (j + 1) (by omega) (by omega)
  rcases hmem with rfl | rfl | rfl | rfl | rfl | rfl
  · exact k1
  · exact k2
  · exact by linarith
  · exact by linarith
  · exact k2
  · exact by linarith

/-- Witness for C7 at a 1x1 grid over one vertex: the emitted index 2
is in range, below (1+1)*(1+1) = 4. -/
theorem surface_indices_in_range_witness :
    2 ∈ (generateMetricSurface defaultParams [vA] 1 1).indices ∧
    2 < (1 + 1) * (1 + 1) := by
  have hm : 2 ∈ (generateMetricSurface defaultParams [vA] 1 1).indices := by
    rw [show (generateMetricSurface defaultParams [vA] 1 1).indices =
      surfaceIndices 1 1 from rfl]
    decide
  exact ⟨hm, surface_indices_in_range defaultParams [vA] 1 1 (le_refl 1) (le_refl 1)
    (by simp) 2 hm⟩


lemma normalizePoint_cases (nx ny nz : ℝ) :
    (Point3.mk (nx / Real.sqrt (nx * nx + ny * ny + nz * nz))
        (ny / Real.sqrt (nx * nx + ny * ny + nz * nz))
        (nz / Real.sqrt (nx * nx + ny * ny + nz * nz)) = ⟨0, 0, 0⟩) ∨
    ((nx / Real.sqrt (nx * nx + ny * ny + nz * nz)) ^ 2 +
      (ny / Real.sqrt (nx * nx + ny * ny + nz * nz)) ^ 2 +
      (nz / Real.sqrt (nx * nx + ny * ny + nz * nz)) ^ 2 = 1) := by
  rcases eq_or_ne (nx * nx + ny * ny + nz * nz) 0 with h | h
  · left
    rw [h, Real.sqrt_zero, div_zero, div_zero, div_zero]
  · right
    have hnn : 0 ≤ nx * nx + ny * ny + nz * nz :=
      add_nonneg (add_nonneg (mul_self_nonneg nx) (mul_self_nonneg ny))
        (mul_self_nonneg nz)
    have hpos : 0 < nx * nx + ny * ny + nz * nz := lt_of_le_of_ne hnn (Ne.symm h)
    have hsq : Real.sqrt (nx * nx + ny * ny + nz * nz) ^ 2 =
        nx * nx + ny * ny + nz * nz := Real.sq_sqrt hnn
    have hne : Real.sqrt (nx * nx + ny * ny + nz * nz) ≠ 0 :=
      ne_of_gt (Real.sqrt_pos.mpr hpos)
    field_simp
    ring

/-- C8 (amended): computeSurfaceNormal has no zero-length guard. When
the cross product of the finite-difference partials is nonzero the
result is a unit vector, but when it vanishes — in particular at the
poles, where sin(theta) = 0 forces every cross-product component to 0 —
the components are divided by zero, yielding NaN in JavaScript (the
zero vector in exact arithmetic) instead of a radial unit vector. -/
theorem computeSurfaceNormal_unit_or_degenerate (p : MetricParams)
    (vs : List MetricVertex) (center : MetricVertex) (theta phi radius : ℝ) :
    (computeSurfaceNormal p vs center theta phi radius = ⟨0, 0, 0⟩ ∨
      (computeSurfaceNormal p vs center theta phi radius).x ^ 2 +
        (computeSurfaceNormal p vs center theta phi radius).y ^ 2 +
        (computeSurfaceNormal p vs center theta phi radius).z ^ 2 = 1) ∧
    (Real.sin theta = 0 →
      computeSurfaceNormal p vs center theta phi radius = ⟨0, 0, 0⟩) := by
  constructor
  · simp only [computeSurfaceNormal]
    exact normalizePoint_cases _ _ _
  · intro hs
    simp [computeSurfaceNormal, hs]

/-- Witness for C8 (amended) at the north pole of a one-vertex
configuration: the returned normal degenerates to the zero vector. -/
theorem computeSurfaceNormal_unit_or_degenerate_witness :
    computeSurfaceNormal defaultParams [vA] (computeCentralVertex [vA]) 0 0 1 =
      ⟨0, 0, 0⟩ :=
  (computeSurfaceNormal_unit_or_degenerate defaultParams [vA]
    (computeCentralVertex [vA]) 0 0 1).2 Real.sin_zero

/-- C8 counterexample: at the pole theta = 0 the cross product of the
partials is identically zero, so the code divides by a zero length; in
exact arithmetic the result is the zero vector, which is not
unit-length — there is no radial-unit-vector fallback. -/
theorem computeSurfaceNormal_pole_not_unit :
    computeSurfaceNormal defaultParams [vB] (computeCentralVertex [vB]) 0 0 1 =
      ⟨0, 0, 0⟩ ∧
    ¬ ((0 : ℝ) ^ 2 + (0 : ℝ) ^ 2 + (0 : ℝ) ^ 2 = 1) := by
  constructor
  · simp [computeSurfaceNormal, Real.sin_zero]
  · norm_num

end MetricSpace
